import Mathlib

/-!
Verification of the sign-up controller
(`src/presentation/controllers/SignUp/signUpController.ts`).

The controller receives an HTTP-shaped request, checks the four required
fields for presence (JavaScript truthiness), compares password against
passwordConfirmation, consults an injected email validator, delegates to an
injected user-creation collaborator, and maps the outcome to a response of
shape (statusCode, body).  Collaborators may throw; the whole body of
`handle` sits in a try/catch that maps any exception to a 500 response.

We embed JavaScript primitive values with their truthiness, the request
body as a total map from field names to values (an absent property reads
as `undefined`), collaborators as functions into `Except Unit`, and the
controller as a pure function.  An instrumented variant `handleTr` also
returns the list of collaborator interactions, which lets us state the
claims about which collaborators are invoked, how often and in what order.
-/

namespace SignUpApi

/-- JavaScript primitive values as they can appear in a request body.
Objects and floating-point NaN are not needed by any claim. -/
inductive JsValue where
  | undefined
  | null
  | bool (b : Bool)
  | num (n : Int)
  | str (s : String)
deriving DecidableEq, Repr

/-- JavaScript truthiness: `undefined`, `null`, `false`, `0` and the empty
string are falsy, everything else is truthy.  This is the test applied by
`if (!httpRequest.body[field])` in the controller. -/
def JsValue.truthy : JsValue → Bool
  | .undefined => false
  | .null => false
  | .bool b => b
  | .num n => n != 0
  | .str s => s != ""

/-- An HTTP-shaped request: a body mapping field names to values.
A property that is absent from the JSON object reads as `undefined`. -/
structure HttpRequest where
  body : String → JsValue

/-- The error value objects of `src/presentation/errors`:
MissingParamError, InvalidParamError and ServerError, each carrying at
most a field name. -/
inductive AppError where
  | missingParam (field : String)
  | invalidParam (field : String)
  | serverErr
deriving DecidableEq, Repr

/-- The data-transfer object of `src/domain/useCases/createUser.ts`:
exactly the three fields name, email and password, no confirmation
field.  Field values come verbatim from the request body. -/
structure CreateUserDTO where
  name : JsValue
  email : JsValue
  password : JsValue
deriving DecidableEq, Repr

/-- The body of a response: either one of the error value objects or the
user record returned by the user-creation collaborator (of an abstract
type `U`, since the controller treats it opaquely). -/
inductive ResponseBody (U : Type) where
  | err (e : AppError)
  | user (u : U)
deriving DecidableEq, Repr

/-- An HTTP-shaped response, as in `src/presentation/protocols`. -/
structure HttpResponse (U : Type) where
  statusCode : Nat
  body : ResponseBody U
deriving DecidableEq, Repr

/-- Modelled from the spec: the helper `badRequest` of
`src/presentation/helpers` (the helpers file itself is not in the
sources) wraps an error into a response with status code 400. -/
def badRequest {U : Type} (e : AppError) : HttpResponse U :=
  ⟨400, ResponseBody.err e⟩

/-- Modelled from the spec: the helper `serverError` of
`src/presentation/helpers` (the helpers file itself is not in the
sources) builds the 500 response carrying a ServerError value. -/
def serverError {U : Type} : HttpResponse U :=
  ⟨500, ResponseBody.err AppError.serverErr⟩

/-- The required fields checked by the controller, in source order. -/
def requiredFields : List String :=
  ["name", "email", "password", "passwordConfirmation"]

instance {ε α : Type} [DecidableEq ε] [DecidableEq α] :
    DecidableEq (Except ε α) := fun x y =>
  match x, y with
  | .error a, .error b =>
    if h : a = b then isTrue (by rw [h]) else isFalse (by simp [h])
  | .error _, .ok _ => isFalse (by simp)
  | .ok _, .error _ => isFalse (by simp)
  | .ok a, .ok b =>
    if h : a = b then isTrue (by rw [h]) else isFalse (by simp [h])

/-- One collaborator interaction, recorded by the instrumented
controller: a call to the email validator with its argument, the value
the validator produced (a boolean, or a thrown exception), a call to the
user-creation collaborator with its argument, or the value the creator
produced (a user, or a thrown exception). -/
inductive Event (U : Type) where
  | validatorCall (arg : JsValue)
  | validatorRet (r : Except Unit Bool)
  | createCall (dto : CreateUserDTO)
  | createRet (r : Except Unit U)
deriving DecidableEq, Repr

/-- Recognises a validator-call event. -/
def Event.isValidatorCall {U : Type} : Event U → Bool
  | .validatorCall _ => true
  | _ => false

/-- Recognises a creator-call event. -/
def Event.isCreateCall {U : Type} : Event U → Bool
  | .createCall _ => true
  | _ => false

/-- `SignUpController.handle`, instrumented: returns the response together
with the list of collaborator interactions, in the order they happen.
Line by line from `signUpController.ts`: the `for` loop over
`requiredFields` returning `badRequest(new MissingParamError(field))` at
the first falsy field is the `List.find?`; then the destructured fields,
the password-confirmation comparison, the validator call, the creator
call, and the try/catch that turns a collaborator exception (the `error`
side of `Except`) into `serverError()`. -/
def handleTr {U : Type} (emailValidator : JsValue → Except Unit Bool)
    (createUser : CreateUserDTO → Except Unit U)
    (httpRequest : HttpRequest) : HttpResponse U × List (Event U) :=
  match requiredFields.find? (fun field => !(httpRequest.body field).truthy) with
  | some field => (badRequest (AppError.missingParam field), [])
  | none =>
    let name := httpRequest.body "name"
    let email := httpRequest.body "email"
    let password := httpRequest.body "password"
    let passwordConfirmation := httpRequest.body "passwordConfirmation"
    if password ≠ passwordConfirmation then
      (badRequest (AppError.invalidParam "passwordConfirmation"), [])
    else
      let vres := emailValidator email
      let tr := [Event.validatorCall email, Event.validatorRet vres]
      match vres with
      | .error _ => (serverError, tr)
      | .ok isValid =>
        if !isValid then (badRequest (AppError.invalidParam "email"), tr)
        else
          let dto : CreateUserDTO := ⟨name, email, password⟩
          let cres := createUser dto
          let tr2 := tr ++ [Event.createCall dto, Event.createRet cres]
          match cres with
          | .error _ => (serverError, tr2)
          | .ok user => (⟨200, ResponseBody.user user⟩, tr2)

/-- `SignUpController.handle`: the response part of the instrumented run. -/
def handle {U : Type} (emailValidator : JsValue → Except Unit Bool)
    (createUser : CreateUserDTO → Except Unit U)
    (httpRequest : HttpRequest) : HttpResponse U :=
  (handleTr emailValidator createUser httpRequest).1

/-- The first required field, in source order, whose value in the body is
absent or falsy; `none` when all four are truthy.  A direct reading of
the check order stated by the spec. -/
def firstInvalidField (body : String → JsValue) : Option String :=
  if !(body "name").truthy then some "name"
  else if !(body "email").truthy then some "email"
  else if !(body "password").truthy then some "password"
  else if !(body "passwordConfirmation").truthy then some "passwordConfirmation"
  else none

/-- The User model of `src/domain/models`, used to instantiate the
abstract user type in concrete runs: id, name, email and password. -/
structure User where
  id : JsValue
  name : JsValue
  email : JsValue
  password : JsValue
deriving DecidableEq, Repr

/-- The request with one named field overwritten; used to state that a
falsy field is handled exactly as an absent one (absent reads as
`undefined`). -/
def setField (req : HttpRequest) (f : String) (val : JsValue) : HttpRequest :=
  ⟨fun g => if g = f then val else req.body g⟩

/-- A request body literal with the four named fields; every other field
reads as `undefined`, as on a JSON object. -/
def mkBody (name email password passwordConfirmation : JsValue) :
    String → JsValue :=
  fun f =>
    if f = "name" then name
    else if f = "email" then email
    else if f = "password" then password
    else if f = "passwordConfirmation" then passwordConfirmation
    else JsValue.undefined

/-- A concrete user record, for concrete runs. -/
def userEx : User :=
  ⟨JsValue.num 1, JsValue.str "any name", JsValue.str "e@mail.com",
   JsValue.str "1234"⟩

/-- An email validator that accepts every address. -/
def validatorTrue : JsValue → Except Unit Bool := fun _ => Except.ok true

/-- An email validator that rejects every address. -/
def validatorFalse : JsValue → Except Unit Bool := fun _ => Except.ok false

/-- A user-creation collaborator that always succeeds with `userEx`. -/
def creatorEx : CreateUserDTO → Except Unit User := fun _ => Except.ok userEx

/-- A request with all four fields truthy and matching passwords. -/
def reqValid : HttpRequest :=
  ⟨mkBody (JsValue.str "n") (JsValue.str "e@m") (JsValue.str "p")
    (JsValue.str "p")⟩

/-- A request with all four fields truthy and differing passwords. -/
def reqMismatch : HttpRequest :=
  ⟨mkBody (JsValue.str "n") (JsValue.str "e@m") (JsValue.str "p")
    (JsValue.str "q")⟩

/-- A request whose password is present but bound to the falsy number 0. -/
def reqFalsyPassword : HttpRequest :=
  ⟨mkBody (JsValue.str "n") (JsValue.str "e@m") (JsValue.num 0)
    (JsValue.str "p")⟩

/-- A request with two falsy fields: email is the empty string and
password is the number 0, both present. -/
def reqTwoFalsy : HttpRequest :=
  ⟨mkBody (JsValue.str "n") (JsValue.str "") (JsValue.num 0)
    (JsValue.str "p")⟩

/-! ## Helper lemmas -/

/-- The find over the required-fields list is the first-falsy-field
function. -/
theorem find?_eq_firstInvalid (body : String → JsValue) :
    requiredFields.find? (fun field => !(body field).truthy) =
      firstInvalidField body := by
  simp only [requiredFields, firstInvalidField, List.find?]
  rcases h1 : (body "name").truthy <;> rcases h2 : (body "email").truthy <;>
    rcases h3 : (body "password").truthy <;>
    rcases h4 : (body "passwordConfirmation").truthy <;> simp [h1, h2, h3, h4]

/-- No field is reported missing exactly when all four required fields
are truthy. -/
theorem firstInvalid_none_iff (body : String → JsValue) :
    firstInvalidField body = none ↔
      ((body "name").truthy = true ∧ (body "email").truthy = true ∧
       (body "password").truthy = true ∧
       (body "passwordConfirmation").truthy = true) := by
  simp only [firstInvalidField]
  rcases h1 : (body "name").truthy <;> rcases h2 : (body "email").truthy <;>
    rcases h3 : (body "password").truthy <;>
    rcases h4 : (body "passwordConfirmation").truthy <;> simp [h1, h2, h3, h4]

/-- Branch lemma: some required field is absent or falsy. -/
theorem handleTr_missing {U : Type} (v : JsValue → Except Unit Bool)
    (c : CreateUserDTO → Except Unit U) (req : HttpRequest) (f : String)
    (h : firstInvalidField req.body = some f) :
    handleTr v c req =
      (⟨400, ResponseBody.err (AppError.missingParam f)⟩, []) := by
  unfold handleTr
  rw [find?_eq_firstInvalid, h]
  rfl

/-- Branch lemma: all fields truthy, passwords differ. -/
theorem handleTr_mismatch {U : Type} (v : JsValue → Except Unit Bool)
    (c : CreateUserDTO → Except Unit U) (req : HttpRequest)
    (hnone : firstInvalidField req.body = none)
    (hne : req.body "password" ≠ req.body "passwordConfirmation") :
    handleTr v c req =
      (⟨400, ResponseBody.err (AppError.invalidParam "passwordConfirmation")⟩,
       []) := by
  unfold handleTr
  rw [find?_eq_firstInvalid, hnone]
  simp [hne, badRequest]

/-- Branch lemma: checks pass, the validator returns false. -/
theorem handleTr_invalid_email {U : Type} (v : JsValue → Except Unit Bool)
    (c : CreateUserDTO → Except Unit U) (req : HttpRequest)
    (hnone : firstInvalidField req.body = none)
    (heq : req.body "password" = req.body "passwordConfirmation")
    (hv : v (req.body "email") = Except.ok false) :
    handleTr v c req =
      (⟨400, ResponseBody.err (AppError.invalidParam "email")⟩,
       [Event.validatorCall (req.body "email"),
        Event.validatorRet (Except.ok false)]) := by
  unfold handleTr
  rw [find?_eq_firstInvalid, hnone]
  simp [heq, hv, badRequest]

/-- Branch lemma: checks pass, the validator accepts, the creator
succeeds. -/
theorem handleTr_success {U : Type} (v : JsValue → Except Unit Bool)
    (c : CreateUserDTO → Except Unit U) (req : HttpRequest) (u : U)
    (hnone : firstInvalidField req.body = none)
    (heq : req.body "password" = req.body "passwordConfirmation")
    (hv : v (req.body "email") = Except.ok true)
    (hc : c ⟨req.body "name", req.body "email", req.body "password"⟩ =
      Except.ok u) :
    handleTr v c req =
      (⟨200, ResponseBody.user u⟩,
       [Event.validatorCall (req.body "email"),
        Event.validatorRet (Except.ok true),
        Event.createCall ⟨req.body "name", req.body "email", req.body "password"⟩,
        Event.createRet (Except.ok u)]) := by
  rw [heq] at hc
  unfold handleTr
  rw [find?_eq_firstInvalid, hnone]
  simp [heq, hv, hc]

/-- Branch lemma: checks pass, the validator throws. -/
theorem handleTr_validator_throw {U : Type} (v : JsValue → Except Unit Bool)
    (c : CreateUserDTO → Except Unit U) (req : HttpRequest)
    (hnone : firstInvalidField req.body = none)
    (heq : req.body "password" = req.body "passwordConfirmation")
    (hv : v (req.body "email") = Except.error ()) :
    handleTr v c req =
      (⟨500, ResponseBody.err AppError.serverErr⟩,
       [Event.validatorCall (req.body "email"),
        Event.validatorRet (Except.error ())]) := by
  unfold handleTr
  rw [find?_eq_firstInvalid, hnone]
  simp [heq, hv, serverError]

/-- Branch lemma: checks pass, the validator accepts, the creator
throws. -/
theorem handleTr_creator_throw {U : Type} (v : JsValue → Except Unit Bool)
    (c : CreateUserDTO → Except Unit U) (req : HttpRequest)
    (hnone : firstInvalidField req.body = none)
    (heq : req.body "password" = req.body "passwordConfirmation")
    (hv : v (req.body "email") = Except.ok true)
    (hc : c ⟨req.body "name", req.body "email", req.body "password"⟩ =
      Except.error ()) :
    handleTr v c req =
      (⟨500, ResponseBody.err AppError.serverErr⟩,
       [Event.validatorCall (req.body "email"),
        Event.validatorRet (Except.ok true),
        Event.createCall ⟨req.body "name", req.body "email", req.body "password"⟩,
        Event.createRet (Except.error ())]) := by
  rw [heq] at hc
  unfold handleTr
  rw [find?_eq_firstInvalid, hnone]
  simp [heq, hv, hc, serverError]

/-- A request holding a falsy required field is reported missing some
field. -/
theorem firstInvalid_ne_none (body : String → JsValue) (f : String)
    (hf : f ∈ requiredFields) (h : (body f).truthy = false) :
    firstInvalidField body ≠ none := by
  intro hn
  rw [firstInvalid_none_iff] at hn
  simp [requiredFields] at hf
  rcases hf with rfl | rfl | rfl | rfl <;> simp_all

/-- Overwriting a falsy required field with `undefined` does not change
which field is reported missing first. -/
theorem firstInvalid_setField (req : HttpRequest) (f : String)
    (hf : f ∈ requiredFields) (h : (req.body f).truthy = false) :
    firstInvalidField (setField req f JsValue.undefined).body =
      firstInvalidField req.body := by
  simp only [requiredFields, List.mem_cons, List.not_mem_nil, or_false] at hf
  have hu : JsValue.undefined.truthy = false := rfl
  rcases hf with rfl | rfl | rfl | rfl <;>
    simp [firstInvalidField, setField, h, hu]

end SignUpApi

namespace SignUpApi

/-! ## Claim theorems -/

/-- Claim C1: for every request whose body has non-falsy name, email,
password and passwordConfirmation, with password equal to
passwordConfirmation, the email validator returning true and the
user-creation collaborator returning a user, handle returns statusCode
200 with body equal to that user object. -/
theorem signup_all_valid_200 {U : Type} (v : JsValue → Except Unit Bool)
    (c : CreateUserDTO → Except Unit U) (req : HttpRequest) (u : U)
    (h1 : (req.body "name").truthy = true)
    (h2 : (req.body "email").truthy = true)
    (h3 : (req.body "password").truthy = true)
    (h4 : (req.body "passwordConfirmation").truthy = true)
    (heq : req.body "password" = req.body "passwordConfirmation")
    (hv : v (req.body "email") = Except.ok true)
    (hc : c ⟨req.body "name", req.body "email", req.body "password"⟩ =
      Except.ok u) :
    handle v c req = ⟨200, ResponseBody.user u⟩ := by
  have hfi : firstInvalidField req.body = none :=
    (firstInvalid_none_iff req.body).2 ⟨h1, h2, h3, h4⟩
  unfold handle
  rw [handleTr_success v c req u hfi heq hv hc]

theorem signup_all_valid_200_witness :
    handle validatorTrue creatorEx reqValid =
      ⟨200, ResponseBody.user userEx⟩ :=
  signup_all_valid_200 validatorTrue creatorEx reqValid userEx
    (by decide) (by decide) (by decide) (by decide) (by decide) rfl rfl

/-- Claim C2: handle produces statusCode 500 exactly when the field and
password-confirmation checks all pass and either the email validator
throws, or the validator returns true and the user-creation collaborator
throws; and a 500 response always carries the ServerError body. -/
theorem signup_500_iff_collaborator_throws {U : Type}
    (v : JsValue → Except Unit Bool) (c : CreateUserDTO → Except Unit U)
    (req : HttpRequest) :
    ((handle v c req).statusCode = 500 ↔ handle v c req = serverError) ∧
    (handle v c req = serverError ↔
      (firstInvalidField req.body = none ∧
       req.body "password" = req.body "passwordConfirmation" ∧
       (v (req.body "email") = Except.error () ∨
        (v (req.body "email") = Except.ok true ∧
         c ⟨req.body "name", req.body "email", req.body "password"⟩ =
           Except.error ())))) := by
  unfold handle
  rcases hfi : firstInvalidField req.body with _ | f
  · by_cases heq : req.body "password" = req.body "passwordConfirmation"
    · rcases hv : v (req.body "email") with ⟨⟨⟩⟩ | b
      · rw [handleTr_validator_throw v c req hfi heq hv]
        simp [serverError, hfi, heq, hv]
      · rcases b
        · rw [handleTr_invalid_email v c req hfi heq hv]
          simp [serverError, hfi, heq, hv]
        · rcases hc : c ⟨req.body "name", req.body "email", req.body "password"⟩
            with ⟨⟨⟩⟩ | u
          · rw [handleTr_creator_throw v c req hfi heq hv hc]
            simp [serverError, hfi, heq, hv, hc]
          · rw [handleTr_success v c req u hfi heq hv hc]
            simp [serverError, hfi, heq, hv, hc]
    · rw [handleTr_mismatch v c req hfi heq]
      simp [serverError, hfi, heq]
  · rw [handleTr_missing v c req f hfi]
    simp [serverError, hfi]

/-- Claim C3: when some required field, checked in the fixed source order
name, email, password, passwordConfirmation, is absent or falsy, handle
returns statusCode 400 with MissingParamError of the first such field,
and neither collaborator is called (the interaction trace is empty). -/
theorem signup_missing_param_first_field {U : Type}
    (v : JsValue → Except Unit Bool) (c : CreateUserDTO → Except Unit U)
    (req : HttpRequest) (f : String)
    (hfirst : firstInvalidField req.body = some f) :
    handleTr v c req =
      (⟨400, ResponseBody.err (AppError.missingParam f)⟩, []) :=
  handleTr_missing v c req f hfirst

theorem signup_missing_param_first_field_witness :
    handleTr validatorTrue creatorEx reqTwoFalsy =
      (⟨400, ResponseBody.err (AppError.missingParam "email")⟩, []) :=
  signup_missing_param_first_field validatorTrue creatorEx reqTwoFalsy
    "email" (by decide)

/-- Claim C4: when all four required fields are non-falsy and password
differs from passwordConfirmation, handle returns statusCode 400 with
InvalidParamError of passwordConfirmation, calling neither the email
validator nor the user-creation collaborator (empty trace). -/
theorem signup_password_mismatch_400 {U : Type}
    (v : JsValue → Except Unit Bool) (c : CreateUserDTO → Except Unit U)
    (req : HttpRequest)
    (h1 : (req.body "name").truthy = true)
    (h2 : (req.body "email").truthy = true)
    (h3 : (req.body "password").truthy = true)
    (h4 : (req.body "passwordConfirmation").truthy = true)
    (hne : req.body "password" ≠ req.body "passwordConfirmation") :
    handleTr v c req =
      (⟨400, ResponseBody.err (AppError.invalidParam "passwordConfirmation")⟩,
       []) :=
  handleTr_mismatch v c req
    ((firstInvalid_none_iff req.body).2 ⟨h1, h2, h3, h4⟩) hne

theorem signup_password_mismatch_400_witness :
    handleTr validatorTrue creatorEx reqMismatch =
      (⟨400, ResponseBody.err (AppError.invalidParam "passwordConfirmation")⟩,
       []) :=
  signup_password_mismatch_400 validatorTrue creatorEx reqMismatch
    (by decide) (by decide) (by decide) (by decide) (by decide)

/-- Claim C5: when all four fields are non-falsy, password equals
passwordConfirmation and the email validator returns false, handle
returns statusCode 400 with InvalidParamError of email, and the
user-creation collaborator is never called. -/
theorem signup_invalid_email_400 {U : Type}
    (v : JsValue → Except Unit Bool) (c : CreateUserDTO → Except Unit U)
    (req : HttpRequest)
    (h1 : (req.body "name").truthy = true)
    (h2 : (req.body "email").truthy = true)
    (h3 : (req.body "password").truthy = true)
    (h4 : (req.body "passwordConfirmation").truthy = true)
    (heq : req.body "password" = req.body "passwordConfirmation")
    (hv : v (req.body "email") = Except.ok false) :
    handleTr v c req =
      (⟨400, ResponseBody.err (AppError.invalidParam "email")⟩,
       [Event.validatorCall (req.body "email"),
        Event.validatorRet (Except.ok false)]) ∧
    ∀ dto : CreateUserDTO, Event.createCall dto ∉ (handleTr v c req).2 := by
  have h := handleTr_invalid_email v c req
    ((firstInvalid_none_iff req.body).2 ⟨h1, h2, h3, h4⟩) heq hv
  refine ⟨h, fun dto => ?_⟩
  rw [h]
  simp

theorem signup_invalid_email_400_witness :
    handleTr validatorFalse creatorEx reqValid =
      (⟨400, ResponseBody.err (AppError.invalidParam "email")⟩,
       [Event.validatorCall (reqValid.body "email"),
        Event.validatorRet (Except.ok false)]) ∧
    ∀ dto : CreateUserDTO,
      Event.createCall dto ∉ (handleTr validatorFalse creatorEx reqValid).2 :=
  signup_invalid_email_400 validatorFalse creatorEx reqValid
    (by decide) (by decide) (by decide) (by decide) (by decide) rfl

/-- Claim C6: whenever the user-creation collaborator is called in a run
of handle, its argument is exactly the record of the three fields name,
email and password taken verbatim from the request body; the DTO type
has no confirmation field and no other field. -/
theorem signup_creator_exact_dto {U : Type}
    (v : JsValue → Except Unit Bool) (c : CreateUserDTO → Except Unit U)
    (req : HttpRequest) (dto : CreateUserDTO)
    (h : Event.createCall dto ∈ (handleTr v c req).2) :
    dto = ⟨req.body "name", req.body "email", req.body "password"⟩ := by
  rcases hfi : firstInvalidField req.body with _ | f
  · by_cases heq : req.body "password" = req.body "passwordConfirmation"
    · rcases hv : v (req.body "email") with ⟨⟨⟩⟩ | b
      · rw [handleTr_validator_throw v c req hfi heq hv] at h; simp at h
      · rcases b
        · rw [handleTr_invalid_email v c req hfi heq hv] at h; simp at h
        · rcases hc : c ⟨req.body "name", req.body "email", req.body "password"⟩
            with ⟨⟨⟩⟩ | u
          · rw [handleTr_creator_throw v c req hfi heq hv hc] at h
            simp at h
            exact h
          · rw [handleTr_success v c req u hfi heq hv hc] at h
            simp at h
            exact h
    · rw [handleTr_mismatch v c req hfi heq] at h; simp at h
  · rw [handleTr_missing v c req f hfi] at h; simp at h

theorem signup_creator_exact_dto_witness :
    (⟨JsValue.str "n", JsValue.str "e@m", JsValue.str "p"⟩ : CreateUserDTO) =
      ⟨reqValid.body "name", reqValid.body "email", reqValid.body "password"⟩ :=
  signup_creator_exact_dto validatorTrue creatorEx reqValid
    ⟨JsValue.str "n", JsValue.str "e@m", JsValue.str "p"⟩ (by decide)

/-- Claim C7: for every request passing the four presence checks and the
password-confirmation equality check, the email validator is called
exactly once, with exactly the email value of the request body: the
validator-call events of the trace are the one-element list holding that
argument. -/
theorem signup_validator_once_exact_email {U : Type}
    (v : JsValue → Except Unit Bool) (c : CreateUserDTO → Except Unit U)
    (req : HttpRequest)
    (h1 : (req.body "name").truthy = true)
    (h2 : (req.body "email").truthy = true)
    (h3 : (req.body "password").truthy = true)
    (h4 : (req.body "passwordConfirmation").truthy = true)
    (heq : req.body "password" = req.body "passwordConfirmation") :
    (handleTr v c req).2.filter Event.isValidatorCall =
      [Event.validatorCall (req.body "email")] := by
  have hfi : firstInvalidField req.body = none :=
    (firstInvalid_none_iff req.body).2 ⟨h1, h2, h3, h4⟩
  rcases hv : v (req.body "email") with ⟨⟨⟩⟩ | b
  · rw [handleTr_validator_throw v c req hfi heq hv]
    simp [Event.isValidatorCall]
  · rcases b
    · rw [handleTr_invalid_email v c req hfi heq hv]
      simp [Event.isValidatorCall]
    · rcases hc : c ⟨req.body "name", req.body "email", req.body "password"⟩
        with ⟨⟨⟩⟩ | u
      · rw [handleTr_creator_throw v c req hfi heq hv hc]
        simp [Event.isValidatorCall]
      · rw [handleTr_success v c req u hfi heq hv hc]
        simp [Event.isValidatorCall]

theorem signup_validator_once_exact_email_witness :
    (handleTr validatorTrue creatorEx reqValid).2.filter
        Event.isValidatorCall =
      [Event.validatorCall (reqValid.body "email")] :=
  signup_validator_once_exact_email validatorTrue creatorEx reqValid
    (by decide) (by decide) (by decide) (by decide) (by decide)

/-- Claim C8: for every request body and every behaviour of the two
collaborators, handle returns a response (it is a total function) whose
statusCode is 200, 400 or 500. -/
theorem signup_status_code_total {U : Type}
    (v : JsValue → Except Unit Bool) (c : CreateUserDTO → Except Unit U)
    (req : HttpRequest) :
    (handle v c req).statusCode = 200 ∨ (handle v c req).statusCode = 400 ∨
      (handle v c req).statusCode = 500 := by
  unfold handle
  rcases hfi : firstInvalidField req.body with _ | f
  · by_cases heq : req.body "password" = req.body "passwordConfirmation"
    · rcases hv : v (req.body "email") with ⟨⟨⟩⟩ | b
      · rw [handleTr_validator_throw v c req hfi heq hv]; simp
      · rcases b
        · rw [handleTr_invalid_email v c req hfi heq hv]; simp
        · rcases hc : c ⟨req.body "name", req.body "email", req.body "password"⟩
            with ⟨⟨⟩⟩ | u
          · rw [handleTr_creator_throw v c req hfi heq hv hc]; simp
          · rw [handleTr_success v c req u hfi heq hv hc]; simp
    · rw [handleTr_mismatch v c req hfi heq]; simp
  · rw [handleTr_missing v c req f hfi]; simp

/-- Claim C9: the collaborators run sequentially: whenever the
user-creation collaborator is called, the whole trace consists of the
validator call, the completed validator return with value true, the
creator call and the creator return, in that order; in particular the
creator is invoked only after the validator has returned true. -/
theorem signup_sequential_trace {U : Type}
    (v : JsValue → Except Unit Bool) (c : CreateUserDTO → Except Unit U)
    (req : HttpRequest) (dto : CreateUserDTO)
    (h : Event.createCall dto ∈ (handleTr v c req).2) :
    ∃ r, (handleTr v c req).2 =
        [Event.validatorCall (req.body "email"),
         Event.validatorRet (Except.ok true),
         Event.createCall dto, Event.createRet r] ∧
      v (req.body "email") = Except.ok true := by
  rcases hfi : firstInvalidField req.body with _ | f
  · by_cases heq : req.body "password" = req.body "passwordConfirmation"
    · rcases hv : v (req.body "email") with ⟨⟨⟩⟩ | b
      · rw [handleTr_validator_throw v c req hfi heq hv] at h; simp at h
      · rcases b
        · rw [handleTr_invalid_email v c req hfi heq hv] at h; simp at h
        · rcases hc : c ⟨req.body "name", req.body "email", req.body "password"⟩
            with ⟨⟨⟩⟩ | u
          · rw [handleTr_creator_throw v c req hfi heq hv hc] at h
            simp at h
            exact ⟨Except.error (), by
              rw [handleTr_creator_throw v c req hfi heq hv hc, h], rfl⟩
          · rw [handleTr_success v c req u hfi heq hv hc] at h
            simp at h
            exact ⟨Except.ok u, by
              rw [handleTr_success v c req u hfi heq hv hc, h], rfl⟩
    · rw [handleTr_mismatch v c req hfi heq] at h; simp at h
  · rw [handleTr_missing v c req f hfi] at h; simp at h

theorem signup_sequential_trace_witness :
    ∃ r, (handleTr validatorTrue creatorEx reqValid).2 =
        [Event.validatorCall (reqValid.body "email"),
         Event.validatorRet (Except.ok true),
         Event.createCall
           ⟨JsValue.str "n", JsValue.str "e@m", JsValue.str "p"⟩,
         Event.createRet r] ∧
      validatorTrue (reqValid.body "email") = Except.ok true :=
  signup_sequential_trace validatorTrue creatorEx reqValid
    ⟨JsValue.str "n", JsValue.str "e@m", JsValue.str "p"⟩ (by decide)

/-- Claim C10, counterexample: the claim as stated fails.  In a request
whose email is the empty string and whose password is the falsy number 0
(both present), handle returns MissingParamError of email, not of the
falsy field password. -/
theorem signup_falsy_field_counterexample :
    reqTwoFalsy.body "password" = JsValue.num 0 ∧
    (reqTwoFalsy.body "password").truthy = false ∧
    handle validatorTrue creatorEx reqTwoFalsy =
      ⟨400, ResponseBody.err (AppError.missingParam "email")⟩ ∧
    AppError.missingParam "email" ≠ AppError.missingParam "password" := by
  decide

/-- Claim C10, amended: a required field bound to a falsy value (empty
string, 0, false, null) is treated exactly as if it were absent —
overwriting it with undefined leaves the response unchanged — and when
it is the first such field in the check order, handle returns statusCode
400 with MissingParamError of that field. -/
theorem signup_falsy_treated_as_absent {U : Type}
    (v : JsValue → Except Unit Bool) (c : CreateUserDTO → Except Unit U)
    (req : HttpRequest) (f : String)
    (hf : f ∈ requiredFields) (h : (req.body f).truthy = false) :
    handle v c req = handle v c (setField req f JsValue.undefined) ∧
    (firstInvalidField req.body = some f →
      handle v c req =
        ⟨400, ResponseBody.err (AppError.missingParam f)⟩) := by
  obtain ⟨g, hg⟩ :=
    Option.ne_none_iff_exists'.1 (firstInvalid_ne_none req.body f hf h)
  constructor
  · unfold handle
    rw [handleTr_missing v c req g hg,
      handleTr_missing v c (setField req f JsValue.undefined) g
        (by rw [firstInvalid_setField req f hf h, hg])]
  · intro hfirst
    unfold handle
    rw [handleTr_missing v c req f hfirst]

theorem signup_falsy_treated_as_absent_witness :
    (handle validatorTrue creatorEx reqFalsyPassword =
      handle validatorTrue creatorEx
        (setField reqFalsyPassword "password" JsValue.undefined)) ∧
    handle validatorTrue creatorEx reqFalsyPassword =
      ⟨400, ResponseBody.err (AppError.missingParam "password")⟩ := by
  have h := signup_falsy_treated_as_absent validatorTrue creatorEx
    reqFalsyPassword "password" (by decide) (by decide)
  exact ⟨h.1, h.2 (by decide)⟩

end SignUpApi
